import Mathlib

/-!
Verification of the TaxPulse OE transaction/tax-projection core.

The development shallowly embeds the reconciliation and tax-projection
engine of the dashboard: the record normalizer and date normalization
(src/services/dataService.ts), the content-key diff engine and refresh
path (src/services/dataService.ts, src/services/notificationService.ts),
the notification log (src/services/notificationService.ts), and the tax
projection plus the delete handler (src/App.tsx).  JavaScript values
arriving from the upstream backend are modelled by an inductive type of
JSON-like runtime values; currency amounts are modelled by rational
numbers; the platform date parser and the generated identifiers are
passed as parameters.
-/

set_option maxRecDepth 4000

namespace TaxPulse

/-- Model of a JavaScript runtime value as delivered by JSON parsing of the
upstream response. `undefined` models the JavaScript value undefined (the result
of reading an absent property); `null` models JSON null. Numbers are modelled
by rationals. -/
inductive JsVal where
  | null
  | undefined
  | bool (b : Bool)
  | num (q : ℚ)
  | str (s : String)
  | arr (elems : List JsVal)
  | obj (fields : List (String × JsVal))

/-- Enum TransactionType from src/types.ts. -/
inductive TransactionType where
  | INCOME
  | EXPENSE
deriving DecidableEq

/-- Enum TransactionStatus from src/types.ts. -/
inductive TransactionStatus where
  | OFFICIAL
  | MANUAL_REVIEW
deriving DecidableEq

/-- The canonical Transaction record (src/types.ts plus the fields the data
service writes: invoiceLink, and the session-scoped isNew flag set by the
diff step). String-typed fields hold the JavaScript string coercion of the
raw value stored there. -/
structure Transaction where
  id : String
  date : String
  clientName : String
  description : String
  amount : ℚ
  vatAmount : ℚ
  grossAmount : ℚ
  afm : String
  mark : String
  invoiceLink : String
  type : TransactionType
  status : TransactionStatus
  isNew : Bool := false
deriving DecidableEq

/-- JavaScript truthiness of a runtime value. -/
def truthy : JsVal → Bool
  | .null => false
  | .undefined => false
  | .bool b => b
  | .num q => decide (q ≠ 0)
  | .str s => decide (s ≠ "")
  | .arr _ => true
  | .obj _ => true

/-- Property read `v[k]` on a value that is not null/undefined: a present
object field, otherwise the JavaScript value undefined. (Reads on
null/undefined throw; the normalizer handles that case before calling
this function.) -/
def propRead : JsVal → String → JsVal
  | .obj fields, k =>
    match fields.lookup k with
    | some v => v
    | none => .undefined
  | _, _ => .undefined

/-- Decimal rendering of an integer-valued rational, as JavaScript renders
such numbers in string contexts. All amounts exercised by the claims are
integer-valued; for a non-integral value we fall back to a num/den
rendering (JavaScript float formatting is not needed by any claim). -/
def ratToString (q : ℚ) : String :=
  if q.den = 1 then toString q.num
  else toString q.num ++ "/" ++ toString q.den

mutual
/-- JavaScript ToString coercion of a runtime value (used for template
literals and String-typed destinations). -/
def jsToString : JsVal → String
  | .null => "null"
  | .undefined => "undefined"
  | .bool true => "true"
  | .bool false => "false"
  | .num q => ratToString q
  | .str s => s
  | .arr xs => String.intercalate "," (jsArrElemStrings xs)
  | .obj _ => "[object Object]"

/-- Element renderings for JavaScript Array.prototype.toString: elements are
joined by commas, with null/undefined elements rendered empty. -/
def jsArrElemStrings : List JsVal → List String
  | [] => []
  | .null :: vs => "" :: jsArrElemStrings vs
  | .undefined :: vs => "" :: jsArrElemStrings vs
  | v :: vs => jsToString v :: jsArrElemStrings vs
end

/-- Minimal JSON string escaping (quote and backslash; no claim depends on
the escaping of control characters). -/
def escapeJsonChars : List Char → String
  | [] => ""
  | '"' :: cs => "\\\"" ++ escapeJsonChars cs
  | '\\' :: cs => "\\\\" ++ escapeJsonChars cs
  | c :: cs => String.singleton c ++ escapeJsonChars cs

mutual
/-- JSON.stringify on a runtime value. (Top-level undefined yields no string
in JavaScript; that case is unreachable from the normalizer, which throws
on null/undefined before serializing.) -/
def jsonStringify : JsVal → String
  | .null => "null"
  | .undefined => "undefined"
  | .bool true => "true"
  | .bool false => "false"
  | .num q => ratToString q
  | .str s => "\"" ++ escapeJsonChars s.toList ++ "\""
  | .arr xs => "[" ++ String.intercalate "," (jsonArrElems xs) ++ "]"
  | .obj fs => "\x7b" ++ String.intercalate "," (jsonObjFields fs) ++ "\x7d"

/-- Array elements for JSON.stringify: undefined elements serialize as null. -/
def jsonArrElems : List JsVal → List String
  | [] => []
  | .undefined :: vs => "null" :: jsonArrElems vs
  | v :: vs => jsonStringify v :: jsonArrElems vs

/-- Object fields for JSON.stringify: undefined-valued keys are skipped. -/
def jsonObjFields : List (String × JsVal) → List String
  | [] => []
  | (_, .undefined) :: fs => jsonObjFields fs
  | (k, v) :: fs =>
    ("\"" ++ escapeJsonChars k.toList ++ "\":" ++ jsonStringify v) :: jsonObjFields fs
end

/-- Numeric value of a list of decimal digit characters (most significant
first), as parseInt/parseFloat read them. -/
def digitsToNat (cs : List Char) : ℕ :=
  cs.foldl (fun a c => 10 * a + (c.toNat - 48)) 0

/-- Leading-decimal parse modelling parseFloat on a string: optional sign,
integer digits, optional fractional digits; trailing junk is ignored and a
string with no leading number yields none (NaN). Scientific notation is not
modelled; no claim depends on it. -/
def parseLeadingRat (s : String) : Option ℚ :=
  let cs := s.toList.dropWhile (fun c => c = ' ')
  let signAndRest : ℚ × List Char :=
    match cs with
    | '-' :: r => (-1, r)
    | '+' :: r => (1, r)
    | r => (1, r)
  let sign := signAndRest.1
  let rest := signAndRest.2
  let intPart := rest.takeWhile Char.isDigit
  let rest2 := rest.dropWhile Char.isDigit
  let fracPart : List Char :=
    match rest2 with
    | '.' :: r => r.takeWhile Char.isDigit
    | _ => []
  if intPart.isEmpty && fracPart.isEmpty then none
  else some (sign * ((digitsToNat intPart : ℚ) +
    (digitsToNat fracPart : ℚ) / ((10 : ℚ) ^ fracPart.length)))

/-- Model of `parseFloat(v) || 0`: numbers pass through, strings get a
leading-decimal parse, everything else (whose ToString has no leading
number) is NaN and the `|| 0` default applies. -/
def jsParseFloatOr0 : JsVal → ℚ
  | .num q => q
  | .str s => (parseLeadingRat s).getD 0
  | _ => 0

/-- Model of `v || d` stored into a String destination: the ToString
coercion of `v` when `v` is truthy, else the default. -/
def jsOrStr (v : JsVal) (d : String) : String :=
  if truthy v then jsToString v else d

/-- Model of `v?.toString() || d` (optional chaining then default for the
empty string). -/
def jsOptToStringOr (v : JsVal) (d : String) : String :=
  match v with
  | .null => d
  | .undefined => d
  | w => if jsToString w = "" then d else jsToString w

/-- Uppercasing as String.prototype.toUpperCase. -/
def jsToUpper (s : String) : String :=
  String.mk (s.toList.map Char.toUpper)

/-- Model of `v.length > 5` on a value already known truthy: string and
array lengths compare numerically; on other values `.length` is undefined
and the comparison is false. -/
def jsLenGT5 : JsVal → Bool
  | .str s => decide (5 < s.length)
  | .arr xs => decide (5 < xs.length)
  | _ => false

/-- String.prototype.split with a single-character separator, over the
character list. -/
def splitChar (c : Char) : List Char → List (List Char)
  | [] => [[]]
  | x :: xs =>
    if x = c then [] :: splitChar c xs
    else
      match splitChar c xs with
      | [] => [[x]]
      | g :: gs => (x :: g) :: gs

/-- String.prototype.split with a single-character separator. -/
def jsSplit (c : Char) (s : String) : List String :=
  (splitChar c s.toList).map (fun cs => String.mk cs)

/-- The part of the string before the first character T, modelling
`dateStr.split(T)[0]` in the ISO branch of normalizeDate. -/
def beforeT (s : String) : String :=
  String.mk (s.toList.takeWhile (fun c => ¬ c = 'T'))

/-- Test for the regular expression `^\d\x7b4\x7d-\d\x7b2\x7d-\d\x7b2\x7d`
(a YYYY-MM-DD prefix). -/
def isoDateStart (s : String) : Bool :=
  match s.toList with
  | y1 :: y2 :: y3 :: y4 :: h1 :: m1 :: m2 :: h2 :: d1 :: d2 :: _ =>
    y1.isDigit && y2.isDigit && y3.isDigit && y4.isDigit &&
    decide (h1 = '-') && m1.isDigit && m2.isDigit &&
    decide (h2 = '-') && d1.isDigit && d2.isDigit
  | _ => false

/-- Test for the full-string regular expression
`^\d\x7b1,2\x7d/\d\x7b1,2\x7d/\d\x7b4\x7d$`. -/
def slashDateMatch (s : String) : Bool :=
  match jsSplit '/' s with
  | [p1, p2, y] =>
    decide (1 ≤ p1.length) && decide (p1.length ≤ 2) && p1.toList.all Char.isDigit &&
    decide (1 ≤ p2.length) && decide (p2.length ≤ 2) && p2.toList.all Char.isDigit &&
    decide (y.length = 4) && y.toList.all Char.isDigit
  | _ => false

/-- parseInt on a matched all-digit component. -/
def parseIntDigits (s : String) : ℕ :=
  digitsToNat s.toList

/-- String.prototype.padStart(2, zero) on a matched date component. -/
def padTo2 (s : String) : String :=
  if s.length < 2 then "0" ++ s else s

/-- Date normalization, from normalizeDate in src/services/dataService.ts
lines 35-70. `pp` models the platform date parser (`new Date(s)` followed by
toISOString and truncation to the date part; none models an invalid date)
and `today` models the current date (`new Date().toISOString()` truncated to
its date part). An absent (empty) or unparseable date falls back to today.
The try/catch around the slash branch is modelled by the fallback arm of the
match, which is unreachable for a string the regular expression accepted. -/
def normalizeDate (pp : String → Option String) (today : String) (dateStr : String) : String :=
  if dateStr = "" then today
  else if isoDateStart dateStr then beforeT dateStr
  else if slashDateMatch dateStr then
    match jsSplit '/' dateStr with
    | [part1, part2, year] =>
      if parseIntDigits part1 ≤ 12 then
        year ++ "-" ++ padTo2 part1 ++ "-" ++ padTo2 part2
      else
        year ++ "-" ++ padTo2 part2 ++ "-" ++ padTo2 part1
    | _ => today
  else
    match pp dateStr with
    | some d => d
    | none => today

/-- Shape test `item.id && item.type && item.status` from
src/services/dataService.ts line 119 (an already-canonical record). -/
def hasTransactionFields (item : JsVal) : Bool :=
  truthy (propRead item "id") && truthy (propRead item "type") &&
    truthy (propRead item "status")

/-- Shape test `item.DATE || item.CLIENT || item[AMOUNT-EUR]` from
src/services/dataService.ts line 120 (a raw spreadsheet row). -/
def hasSheetFields (item : JsVal) : Bool :=
  truthy (propRead item "DATE") || truthy (propRead item "CLIENT") ||
    truthy (propRead item "AMOUNT-EUR")

/-- Model of `item.type || TransactionType.EXPENSE`. The program only ever
compares a transaction type against INCOME, so a runtime value other than
the INCOME enum string behaves as EXPENSE throughout; the embedding
collapses such values accordingly. -/
def jsTxType (v : JsVal) : TransactionType :=
  match v with
  | .str "INCOME" => .INCOME
  | _ => .EXPENSE

/-- Model of `item.status || TransactionStatus.MANUAL_REVIEW`; a runtime
value other than the OFFICIAL enum string behaves as MANUAL_REVIEW in every
status check of the program. -/
def jsTxStatus (v : JsVal) : TransactionStatus :=
  match v with
  | .str "OFFICIAL" => .OFFICIAL
  | _ => .MANUAL_REVIEW

/-- Status inference for a raw sheet row, from src/services/dataService.ts
lines 140-149: a MARK value longer than 5 characters makes the row OFFICIAL;
otherwise the upper-cased AADE sync status is consulted. -/
def sheetStatus (item : JsVal) : TransactionStatus :=
  let aadeValue :=
    match propRead item "AADE" with
    | .null => ""
    | .undefined => ""
    | w => jsToUpper (jsToString w)
  if truthy (propRead item "MARK") && jsLenGT5 (propRead item "MARK") then
    .OFFICIAL
  else if aadeValue = "MANUAL_REVIEW_REQUIRED" then .MANUAL_REVIEW
  else if aadeValue = "OFFICIAL" then .OFFICIAL
  else .MANUAL_REVIEW

/-- The three-way normalization of one upstream item on a non-null receiver,
from src/services/dataService.ts lines 117-182. `genId` models the generated
fallback identifier (tx-Date.now()-random); `index` is the position of the
item in the batch; `pp` and `today` are as in normalizeDate. In the
unrecognized branch the source computes normalizeDate on the current ISO
timestamp, which truncates to its date part, i.e. `today`. -/
def normalizeItemCore (pp : String → Option String) (today genId : String)
    (index : ℕ) (item : JsVal) : Transaction :=
  if hasTransactionFields item then
    { id := jsOrStr (propRead item "id") genId
      date := normalizeDate pp today (jsOrStr (propRead item "date") "")
      clientName := jsOrStr (propRead item "clientName") "Unknown"
      description := jsOrStr (propRead item "description") ""
      amount := jsParseFloatOr0 (propRead item "amount")
      vatAmount := jsParseFloatOr0 (propRead item "vatAmount")
      grossAmount := jsParseFloatOr0 (propRead item "grossAmount")
      afm := jsOrStr (propRead item "afm") ""
      mark := jsOrStr (propRead item "mark") ""
      invoiceLink := jsOrStr (propRead item "invoiceLink") ""
      type := jsTxType (propRead item "type")
      status := jsTxStatus (propRead item "status")
      isNew := false }
  else if hasSheetFields item then
    { id := jsOptToStringOr (propRead item "A/A") genId
      date := normalizeDate pp today (jsOrStr (propRead item "DATE") "")
      clientName := jsOrStr (propRead item "CLIENT") "Unknown"
      description := jsOrStr (propRead item "DESCRIPTION") ""
      amount := jsParseFloatOr0 (propRead item "NET")
      vatAmount := jsParseFloatOr0 (propRead item "FPA")
      grossAmount := jsParseFloatOr0 (propRead item "AMOUNT-EUR")
      afm := jsOrStr (propRead item "AFM") ""
      mark := jsOrStr (propRead item "MARK") ""
      invoiceLink := jsOrStr (propRead item "INVOICE_LINK") ""
      type := .EXPENSE
      status := sheetStatus item
      isNew := false }
  else
    { id := "tx-unknown-" ++ toString index
      date := today
      clientName := "Unknown Format"
      description := jsonStringify item
      amount := 0
      vatAmount := 0
      grossAmount := 0
      afm := ""
      mark := ""
      invoiceLink := ""
      type := .EXPENSE
      status := .MANUAL_REVIEW
      isNew := false }

/-- The normalizer applied to one upstream item. The first operation the
source performs on the item is the property read `item.id`, which in
JavaScript throws a TypeError when the item is null or undefined; every
later read is also on `item`, so that initial read is the only possible
throw site and the embedding checks it once up front. -/
def normalizeItem (pp : String → Option String) (today genId : String)
    (index : ℕ) : JsVal → Except String Transaction
  | JsVal.null => Except.error "TypeError: Cannot read properties of null"
  | JsVal.undefined => Except.error "TypeError: Cannot read properties of undefined"
  | item => Except.ok (normalizeItemCore pp today genId index item)

/-- The stable content key of a transaction, from createTransactionKey in
src/services/dataService.ts lines 8-10 (the identical helper appears in
src/services/notificationService.ts lines 185-189): the template literal
date-clientName-grossAmount-type. -/
def createTransactionKey (t : Transaction) : String :=
  t.date ++ "-" ++ t.clientName ++ "-" ++ ratToString t.grossAmount ++ "-" ++
    (match t.type with
     | .INCOME => "INCOME"
     | .EXPENSE => "EXPENSE")

/-- Sort key of a normalized YYYY-MM-DD date string: the number yyyymmdd.
It is order-isomorphic to `new Date(s).getTime()` on canonical date strings,
the comparator the source sorts by; a non-canonical string gets key 0. -/
def isoDateKey (s : String) : ℕ :=
  match s.toList with
  | y1 :: y2 :: y3 :: y4 :: h1 :: m1 :: m2 :: h2 :: d1 :: d2 :: [] =>
    if y1.isDigit && y2.isDigit && y3.isDigit && y4.isDigit &&
        decide (h1 = '-') && m1.isDigit && m2.isDigit &&
        decide (h2 = '-') && d1.isDigit && d2.isDigit then
      digitsToNat [y1, y2, y3, y4] * 10000 + digitsToNat [m1, m2] * 100 +
        digitsToNat [d1, d2]
    else 0
  | _ => 0

/-- Descending-date comparator used by the sort at
src/services/dataService.ts lines 186-191 (`dateB.getTime() -
dateA.getTime()`). -/
def dateDesc (a b : Transaction) : Prop :=
  isoDateKey b.date ≤ isoDateKey a.date

instance : DecidableRel dateDesc := fun _ _ => Nat.decLe _ _

instance : IsTotal Transaction dateDesc :=
  ⟨fun a b => Nat.le_total (isoDateKey b.date) (isoDateKey a.date)⟩

instance : IsTrans Transaction dateDesc :=
  ⟨fun _ _ _ hab hbc => le_trans hbc hab⟩

/-- The stable descending-by-date sort of the fetched batch
(src/services/dataService.ts lines 186-191). Array.prototype.sort is a
stable sort ordered by the comparator; a stable sort by a total preorder is
unique, so insertion sort by the same comparator produces the same list. -/
def sortByDateDesc (l : List Transaction) : List Transaction :=
  List.insertionSort dateDesc l

/-- Marking of one transaction against the last-seen key set
(src/services/dataService.ts lines 197-211): isNew is set exactly when the
content key is absent from the baseline. -/
def markTransaction (lastSeenKeys : List String) (t : Transaction) : Transaction :=
  { t with isNew := decide (createTransactionKey t ∉ lastSeenKeys) }

/-- Result of the diff-and-mark step of getStoredTransactions: the marked
batch, the collected current keys, and the number of new transactions. -/
structure FetchResult where
  transactions : List Transaction
  currentKeys : List String
  newCount : ℕ
deriving DecidableEq

/-- The diff-and-mark step of src/services/dataService.ts lines 193-216. The
source accumulates `currentKeys` and `newCount` while mapping over the
sorted batch; the embedding expresses the same three outputs directly. -/
def markNew (lastSeenKeys : List String) (sorted : List Transaction) : FetchResult :=
  { transactions := sorted.map (markTransaction lastSeenKeys)
    currentKeys := sorted.map createTransactionKey
    newCount := (sorted.filter (fun t => createTransactionKey t ∉ lastSeenKeys)).length }

/-- The webhook success path of getStoredTransactions
(src/services/dataService.ts lines 74-237) after normalization, as a
function of the persisted last-seen key set and the normalized batch: a
non-empty batch is sorted, diffed against the baseline read before the
fetch, and its keys are persisted as the new baseline; an empty batch
returns no transactions and leaves the baseline untouched (the save on line
216 is only reached when the data array is non-empty). The second component
is the persisted last-seen key set after the call. -/
def getStoredTransactions (lastSeen : List String) (batch : List Transaction) :
    FetchResult × List String :=
  if batch.isEmpty then
    ({ transactions := [], currentKeys := [], newCount := 0 }, lastSeen)
  else
    let r := markNew lastSeen (sortByDateDesc batch)
    (r, r.currentKeys)

/-- Result record of manualRefresh (src/services/notificationService.ts
line 195). -/
structure RefreshResult where
  transactions : List Transaction
  newCount : ℕ
  newTransactions : List Transaction
deriving DecidableEq

/-- The success path of manualRefresh, src/services/notificationService.ts
lines 192-260: the fetched batch is returned as delivered (no
normalization, no sort), and a fetched transaction counts as new exactly
when its content key is absent from the key set of the transaction
collection passed in by the caller (the current UI state). No baseline is
read from or written to storage on this path. -/
def manualRefresh (currentTransactions fetched : List Transaction) : RefreshResult :=
  let currentKeys := currentTransactions.map createTransactionKey
  let brandNew := fetched.filter (fun t => createTransactionKey t ∉ currentKeys)
  { transactions := fetched
    newCount := brandNew.length
    newTransactions := brandNew }

/-- Session state visible to the reconciliation logic of src/App.tsx: the
React transaction collection and the persisted last-seen key set. -/
structure AppState where
  transactions : List Transaction
  lastSeen : List String
deriving DecidableEq

/-- The session state before any fetch. -/
def emptyAppState : AppState :=
  { transactions := [], lastSeen := [] }

/-- The initial-load path of src/App.tsx lines 85-127 (loadTransactions):
getStoredTransactions updates the collection and the persisted baseline;
the transactions it marked new are the ones notifications are created for.
Returns the new state and that new-transaction list. -/
def loadTransactions (batch : List Transaction) (s : AppState) :
    AppState × List Transaction :=
  let r := getStoredTransactions s.lastSeen batch
  ({ transactions := r.1.transactions, lastSeen := r.2 },
    r.1.transactions.filter (fun t => t.isNew))

/-- The manual/periodic refresh path of src/App.tsx lines 145-175
(handleManualRefresh): manualRefresh is diffed against the current React
collection, the collection is replaced by the fetched batch, and the
persisted last-seen key set is not touched. Returns the new state and the
transactions reported new. -/
def handleManualRefresh (fetched : List Transaction) (s : AppState) :
    AppState × List Transaction :=
  let r := manualRefresh s.transactions fetched
  ({ transactions := r.transactions, lastSeen := s.lastSeen }, r.newTransactions)

/-- The optimistic local removal `prev.filter(t => t.id !== transactionId)`
of src/App.tsx line 256. -/
def optimisticRemove (txs : List Transaction) (tid : String) : List Transaction :=
  txs.filter (fun t => ¬ t.id = tid)

/-- The local-removal step of handleDeleteTransaction applied to the session
state (src/App.tsx line 256). -/
def deleteLocal (tid : String) (s : AppState) : AppState :=
  { s with transactions := optimisticRemove s.transactions tid }

/-- Outcome of the external delete confirmation call: a resolved call, or a
rejected/malformed one (the non-critical apiError caught on line 265). -/
inductive ConfirmResult where
  | ok
  | apiError
deriving DecidableEq

/-- Toast shown by the delete handler. -/
inductive ToastKind where
  | success
  | error
deriving DecidableEq

/-- Observable outcome of the delete handler: the resulting collection, the
toast shown, and whether a full page reload was forced. -/
structure DeleteOutcome where
  transactions : List Transaction
  toast : ToastKind
  reloaded : Bool
deriving DecidableEq

/-- handleDeleteTransaction, src/App.tsx lines 247-277. The collection is
filtered and the success toast shown before the confirmation call is
awaited; the inner catch absorbs a confirmation failure without re-adding
the transaction. `criticalFault` models an exception raised outside the
inner try (for example by the local removal path itself), which the outer
catch answers with an error toast and a forced reload, leaving the
collection as it was. -/
def handleDeleteTransaction (txs : List Transaction) (tid : String)
    (criticalFault : Bool) (confirm : ConfirmResult) : DeleteOutcome :=
  if criticalFault then
    { transactions := txs, toast := .error, reloaded := true }
  else
    let afterLocal := optimisticRemove txs tid
    match confirm with
    | .ok => { transactions := afterLocal, toast := .success, reloaded := false }
    | .apiError => { transactions := afterLocal, toast := .success, reloaded := false }

/-- Kind of an in-app notification (src/services/notificationService.ts
line 6). -/
inductive NotifKind where
  | info
  | success
  | warning
deriving DecidableEq

/-- An in-app notification (src/services/notificationService.ts lines 3-10);
the timestamp is epoch milliseconds. -/
structure Notification where
  id : String
  message : String
  type : NotifKind
  transaction : Option Transaction
  timestamp : ℕ
  read : Bool
deriving DecidableEq

/-- addNotification, src/services/notificationService.ts lines 115-129,
as a function of the loaded log: a duplicate id is a no-op, otherwise the
notification is prepended and the log trimmed to the 50 most recent
entries before being persisted. -/
def addNotification (current : List Notification) (n : Notification) :
    List Notification :=
  if current.any (fun m => m.id = n.id) then current
  else (n :: current).take 50

/-- Greek O.E. tax constants for 2026, src/App.tsx lines 24-26. -/
def TAX_RATE : ℚ := 0.20

/-- Flat annual fee, src/App.tsx line 25. -/
def TELOS_EPITIDEUMATOS : ℚ := 800

/-- Advance payment rate, src/App.tsx line 26. -/
def ADVANCE_PAYMENT_RATE : ℚ := 0.80

/-- CURRENT_YEAR from the constants module. -/
def CURRENT_YEAR : ℕ := 2024

/-- The derived TaxProjection record (src/types.ts). -/
structure TaxProjection where
  year : ℕ
  totalIncome : ℚ
  totalExpenses : ℚ
  taxableIncome : ℚ
  estimatedTax : ℚ
  currentYearTax : ℚ
  advancePayment : ℚ
  telosEpitideumatos : ℚ
  incomeCount : ℕ
  expenseCount : ℕ
deriving DecidableEq

/-- The tax projection computed from the transaction collection,
src/App.tsx lines 178-204. -/
def projection (transactions : List Transaction) : TaxProjection :=
  let income := (transactions.filter (fun t => t.type = TransactionType.INCOME)).foldl
    (fun sum t => sum + t.grossAmount) 0
  let expenses := (transactions.filter (fun t => t.type = TransactionType.EXPENSE)).foldl
    (fun sum t => sum + t.grossAmount) 0
  let taxableIncome := max 0 (income - expenses)
  let currentYearTax := taxableIncome * TAX_RATE
  let advancePayment := currentYearTax * ADVANCE_PAYMENT_RATE
  let totalTax := currentYearTax + advancePayment + TELOS_EPITIDEUMATOS
  { year := CURRENT_YEAR
    totalIncome := income
    totalExpenses := expenses
    taxableIncome := taxableIncome
    estimatedTax := totalTax
    currentYearTax := currentYearTax
    advancePayment := advancePayment
    telosEpitideumatos := TELOS_EPITIDEUMATOS
    incomeCount := (transactions.filter (fun t => t.type = TransactionType.INCOME)).length
    expenseCount := (transactions.filter (fun t => t.type = TransactionType.EXPENSE)).length }

/-- The data submitted to createTransaction (src/services/dataService.ts
lines 417-429). -/
structure NewTransactionData where
  date : String
  clientName : String
  description : String
  grossAmount : ℚ
  vatAmount : ℚ
  type : TransactionType
  afm : Option String
  status : TransactionStatus
  invoiceLink : Option String

/-- The no-backend fallback of createTransaction, src/services/dataService.ts
lines 483-513: a temp-prefixed id from the current epoch milliseconds `now`,
net amount derived as gross minus VAT, an empty registry mark, and the
submitted fields carried over. -/
def createTransaction (transactionData : NewTransactionData) (now : ℕ) : Transaction :=
  { id := "temp-" ++ toString now
    date := transactionData.date
    clientName := transactionData.clientName
    description := transactionData.description
    amount := transactionData.grossAmount - transactionData.vatAmount
    vatAmount := transactionData.vatAmount
    grossAmount := transactionData.grossAmount
    afm := transactionData.afm.getD ""
    mark := ""
    invoiceLink := transactionData.invoiceLink.getD ""
    type := transactionData.type
    status := transactionData.status
    isNew := false }

/-- Helper building a transaction with the fields the claims exercise. -/
def mkTx (i d c : String) (g : ℚ) (ty : TransactionType) : Transaction :=
  { id := i
    date := d
    clientName := c
    description := ""
    amount := 0
    vatAmount := 0
    grossAmount := g
    afm := ""
    mark := ""
    invoiceLink := ""
    type := ty
    status := TransactionStatus.MANUAL_REVIEW
    isNew := false }

/-- An income transaction of gross 10000 (the worked example of the spec). -/
def txIncome : Transaction := mkTx "i1" "2024-01-15" "Acme" 10000 .INCOME

/-- An expense transaction of gross 3000 (the worked example of the spec). -/
def txExpense : Transaction := mkTx "e1" "2024-02-15" "Vendor" 3000 .EXPENSE

/-- A January transaction, used by the diff and ordering scenarios. -/
def txJan : Transaction := mkTx "a" "2024-01-01" "ClientA" 100 .INCOME

/-- A June transaction, used by the ordering scenarios. -/
def txJun : Transaction := mkTx "b" "2024-06-01" "ClientB" 200 .INCOME

/-- A platform date parser that accepts nothing, for concrete instances
that never reach the parser branch. -/
def ppNone : String → Option String := fun _ => none

/-- Summing gross amounts by a left fold equals the sum of the mapped
list (the reduce of src/App.tsx lines 179-185). -/
theorem foldl_add_map (f : Transaction → ℚ) (l : List Transaction) :
    ∀ a : ℚ, l.foldl (fun sum t => sum + f t) a = a + (l.map f).sum := by
  induction l with
  | nil => intro a; simp
  | cons t ts ih => intro a; simp [ih, add_assoc]

/-- C1. For every transaction collection the projection computes: totalIncome
as the sum of grossAmount over INCOME transactions, totalExpenses as the sum
over EXPENSE transactions, taxableIncome = max(0, totalIncome −
totalExpenses) and hence never negative, currentYearTax = 20% of
taxableIncome, advancePayment = 80% of currentYearTax, and estimatedTax =
currentYearTax + advancePayment + 800; on income 10000 and expenses 3000
this yields 7000, 1400, 1120 and 3320. -/
theorem C1_tax_projection (txs : List Transaction) :
    (projection txs).totalIncome =
      ((txs.filter (fun t => t.type = TransactionType.INCOME)).map
        (fun t => t.grossAmount)).sum ∧
    (projection txs).totalExpenses =
      ((txs.filter (fun t => t.type = TransactionType.EXPENSE)).map
        (fun t => t.grossAmount)).sum ∧
    (projection txs).taxableIncome =
      max 0 ((projection txs).totalIncome - (projection txs).totalExpenses) ∧
    0 ≤ (projection txs).taxableIncome ∧
    (projection txs).currentYearTax = (projection txs).taxableIncome * (0.20 : ℚ) ∧
    (projection txs).advancePayment = (projection txs).currentYearTax * (0.80 : ℚ) ∧
    (projection txs).estimatedTax =
      (projection txs).currentYearTax + (projection txs).advancePayment + 800 ∧
    (projection [txIncome, txExpense]).taxableIncome = 7000 ∧
    (projection [txIncome, txExpense]).currentYearTax = 1400 ∧
    (projection [txIncome, txExpense]).advancePayment = 1120 ∧
    (projection [txIncome, txExpense]).estimatedTax = 3320 := by
  refine ⟨?_, ?_, ?_, ?_, ?_, ?_, ?_, ?_, ?_, ?_, ?_⟩
  · simp [projection, foldl_add_map]
  · simp [projection, foldl_add_map]
  · rfl
  · exact le_max_left 0 _
  · rfl
  · rfl
  · rfl
  · simp +decide only [projection, txIncome, txExpense, mkTx, List.filter_cons,
      List.filter_nil, List.foldl_cons, List.foldl_nil, TAX_RATE,
      ADVANCE_PAYMENT_RATE, TELOS_EPITIDEUMATOS]
    norm_num
  · simp +decide only [projection, txIncome, txExpense, mkTx, List.filter_cons,
      List.filter_nil, List.foldl_cons, List.foldl_nil, TAX_RATE,
      ADVANCE_PAYMENT_RATE, TELOS_EPITIDEUMATOS]
    norm_num
  · simp +decide only [projection, txIncome, txExpense, mkTx, List.filter_cons,
      List.filter_nil, List.foldl_cons, List.foldl_nil, TAX_RATE,
      ADVANCE_PAYMENT_RATE, TELOS_EPITIDEUMATOS]
    norm_num
  · simp +decide only [projection, txIncome, txExpense, mkTx, List.filter_cons,
      List.filter_nil, List.foldl_cons, List.foldl_nil, TAX_RATE,
      ADVANCE_PAYMENT_RATE, TELOS_EPITIDEUMATOS]
    norm_num

/-- C8. For every store and id: with no critical fault, the collection is
the optimistic local removal, the deleted id is gone from it, the outcome is
the same whether confirmation later succeeds or fails (no re-insert), the
toast is the success toast and no reload occurs; a critical fault (an
exception outside the confirmation call) yields the error toast and a
forced reload. -/
theorem C8_optimistic_delete (txs : List Transaction) (tid : String)
    (confirm : ConfirmResult) :
    (handleDeleteTransaction txs tid false confirm).transactions =
      optimisticRemove txs tid ∧
    tid ∉ (handleDeleteTransaction txs tid false confirm).transactions.map
      (fun t => t.id) ∧
    handleDeleteTransaction txs tid false ConfirmResult.apiError =
      handleDeleteTransaction txs tid false ConfirmResult.ok ∧
    (handleDeleteTransaction txs tid false confirm).toast = ToastKind.success ∧
    (handleDeleteTransaction txs tid false confirm).reloaded = false ∧
    (handleDeleteTransaction txs tid true confirm).toast = ToastKind.error ∧
    (handleDeleteTransaction txs tid true confirm).reloaded = true := by
  refine ⟨?_, ?_, ?_, ?_, ?_, ?_, ?_⟩
  · cases confirm <;> rfl
  · intro hmem
    rcases List.mem_map.mp (by
      cases confirm <;> simpa [handleDeleteTransaction] using hmem) with ⟨t, ht, hid⟩
    rcases List.mem_filter.mp ht with ⟨_, hne⟩
    exact (of_decide_eq_true hne) hid
  · rfl
  · cases confirm <;> rfl
  · cases confirm <;> rfl
  · rfl
  · rfl

/-- C10. With no backend endpoint configured, createTransaction returns a
transaction whose net amount is the submitted gross minus VAT, whose id
begins with temp-, whose mark is empty, and whose remaining fields carry the
submitted data (absent optional fields becoming empty strings). -/
theorem C10_local_create (transactionData : NewTransactionData) (now : ℕ) :
    (createTransaction transactionData now).amount =
      transactionData.grossAmount - transactionData.vatAmount ∧
    (∃ r, (createTransaction transactionData now).id = "temp-" ++ r) ∧
    (createTransaction transactionData now).mark = "" ∧
    (createTransaction transactionData now).date = transactionData.date ∧
    (createTransaction transactionData now).clientName = transactionData.clientName ∧
    (createTransaction transactionData now).description = transactionData.description ∧
    (createTransaction transactionData now).vatAmount = transactionData.vatAmount ∧
    (createTransaction transactionData now).grossAmount = transactionData.grossAmount ∧
    (createTransaction transactionData now).type = transactionData.type ∧
    (createTransaction transactionData now).status = transactionData.status ∧
    (createTransaction transactionData now).afm = transactionData.afm.getD "" ∧
    (createTransaction transactionData now).invoiceLink =
      transactionData.invoiceLink.getD "" :=
  ⟨rfl, ⟨toString now, rfl⟩, rfl, rfl, rfl, rfl, rfl, rfl, rfl, rfl, rfl, rfl⟩

/-- Every transaction of a batch has its content key in the key list
collected from that same batch, so a diff against those keys finds nothing
new. -/
theorem filter_not_mem_keys (l : List Transaction) :
    l.filter (fun t => createTransactionKey t ∉ l.map createTransactionKey) = [] := by
  rw [List.filter_eq_nil_iff]
  intro t ht
  simp only [decide_not, Bool.not_eq_eq_eq_not, Bool.not_true, decide_eq_false_iff_not,
    not_not]
  exact List.mem_map_of_mem createTransactionKey ht

/-- C3. The diff is a pure function of the batch and the baseline, so two
runs on the same inputs mark the same transactions new (definitional in the
embedding); and after the key set collected from the batch has been
persisted as the baseline — which is exactly what a successful fetch
persists — rerunning the diff on the same batch reports zero new
transactions. Both the getStoredTransactions path and the manualRefresh
path (whose baseline is the collection it just returned) are covered. -/
theorem C3_diff_idempotence (lastSeen : List String) (batch cur : List Transaction) :
    ((getStoredTransactions lastSeen batch).1.transactions.filter (fun t => t.isNew) =
      (getStoredTransactions lastSeen batch).1.transactions.filter (fun t => t.isNew)) ∧
    (getStoredTransactions (getStoredTransactions lastSeen batch).2 batch).1.newCount = 0 ∧
    ((manualRefresh cur batch).newTransactions =
      (manualRefresh cur batch).newTransactions) ∧
    (manualRefresh (manualRefresh cur batch).transactions batch).newCount = 0 := by
  refine ⟨rfl, ?_, rfl, ?_⟩
  · by_cases hb : batch.isEmpty
    · simp [getStoredTransactions, hb]
    · have hK : (getStoredTransactions lastSeen batch).2 =
          (sortByDateDesc batch).map createTransactionKey := by
        simp [getStoredTransactions, hb, markNew]
      rw [hK]
      simp only [getStoredTransactions, hb, Bool.false_eq_true, if_false, markNew]
      rw [filter_not_mem_keys]
      rfl
  · simp only [manualRefresh]
    rw [filter_not_mem_keys]
    rfl

/-- C7 counterexample. A manual refresh of a batch delivered in ascending
date order returns it unsorted: with the June transaction after the January
one, the returned collection is not ordered by descending date. -/
theorem C7_counterexample :
    ¬ ((manualRefresh [] [txJan, txJun]).transactions.Pairwise dateDesc) := by
  decide

/-- C7 as amended. The initial-load path returns the marked batch sorted by
date descending (ties kept stable), a permutation of the marked fetched
batch; the manual refresh path returns the fetched batch exactly in
upstream order, without sorting. -/
theorem C7_output_ordering (lastSeen : List String) (batch cur fetched : List Transaction) :
    ((getStoredTransactions lastSeen batch).1.transactions).Pairwise dateDesc ∧
    ((getStoredTransactions lastSeen batch).1.transactions).Perm
      (batch.map (markTransaction lastSeen)) ∧
    (manualRefresh cur fetched).transactions = fetched := by
  refine ⟨?_, ?_, rfl⟩
  · by_cases hb : batch.isEmpty
    · simp [getStoredTransactions, hb]
    · simp only [getStoredTransactions, hb, if_false, markNew]
      exact (List.sorted_insertionSort dateDesc batch).map (markTransaction lastSeen)
        (fun a b h => h)
  · by_cases hb : batch.isEmpty
    · rw [List.isEmpty_iff] at hb
      simp [getStoredTransactions, hb]
    · simp only [getStoredTransactions, hb, if_false, markNew]
      exact (List.perm_insertionSort dateDesc batch).map (markTransaction lastSeen)

/-- C2 counterexample. Load a batch containing one transaction (its key is
then in the persisted baseline), delete it locally, then refresh with the
same upstream batch: the refresh reports the transaction as new even though
its content key is in the key set computed and persisted on the previous
successful fetch, and the refresh leaves the persisted baseline unwritten —
the manual refresh path diffs against the current UI collection, not the
persisted baseline. -/
theorem C2_counterexample :
    createTransactionKey txJan ∈
      (deleteLocal txJan.id (loadTransactions [txJan] emptyAppState).1).lastSeen ∧
    txJan ∈ (handleManualRefresh [txJan]
      (deleteLocal txJan.id (loadTransactions [txJan] emptyAppState).1)).2 ∧
    (handleManualRefresh [txJan]
      (deleteLocal txJan.id (loadTransactions [txJan] emptyAppState).1)).1.lastSeen =
      (loadTransactions [txJan] emptyAppState).1.lastSeen := by
  decide

/-- C2 as amended. On the initial-load path a fetched transaction is marked
new iff its content key is absent from the persisted baseline, and for a
non-empty batch the fetched keys are persisted as the new baseline in the
same cycle; the manual/periodic refresh path instead classifies a fetched
transaction as new iff its key is absent from the key set of the current
in-memory collection, and never updates the persisted baseline. -/
theorem C2_new_classification (lastSeen : List String) (batch : List Transaction)
    (hb : batch ≠ []) (cur fetched : List Transaction) (s : AppState) :
    (∀ t ∈ (getStoredTransactions lastSeen batch).1.transactions,
      t.isNew = true ↔ createTransactionKey t ∉ lastSeen) ∧
    (getStoredTransactions lastSeen batch).2 =
      (sortByDateDesc batch).map createTransactionKey ∧
    (∀ t ∈ fetched, t ∈ (manualRefresh cur fetched).newTransactions ↔
      createTransactionKey t ∉ cur.map createTransactionKey) ∧
    (handleManualRefresh fetched s).1.lastSeen = s.lastSeen := by
  have hbe : batch.isEmpty = false := by
    cases batch with
    | nil => exact absurd rfl hb
    | cons a l => rfl
  refine ⟨?_, ?_, ?_, rfl⟩
  · intro t ht
    simp only [getStoredTransactions, hbe, Bool.false_eq_true, if_false, markNew,
      List.mem_map] at ht
    rcases ht with ⟨u, _, rfl⟩
    constructor
    · intro hnew
      exact of_decide_eq_true hnew
    · intro habs
      exact decide_eq_true habs
  · simp only [getStoredTransactions, hbe, Bool.false_eq_true, if_false, markNew]
  · intro t ht
    simp [manualRefresh, List.mem_filter, ht]

/-- C2 witness: the amended statement at the singleton batch containing the
January transaction, an empty baseline and an empty current collection. -/
theorem C2_witness :
    (∀ t ∈ (getStoredTransactions [] [txJan]).1.transactions,
      t.isNew = true ↔ createTransactionKey t ∉ ([] : List String)) ∧
    (getStoredTransactions [] [txJan]).2 =
      (sortByDateDesc [txJan]).map createTransactionKey ∧
    (∀ t ∈ [txJan], t ∈ (manualRefresh [] [txJan]).newTransactions ↔
      createTransactionKey t ∉ ([] : List Transaction).map createTransactionKey) ∧
    (handleManualRefresh [txJan] emptyAppState).1.lastSeen = emptyAppState.lastSeen :=
  C2_new_classification [] [txJan] (List.cons_ne_nil _ _) [] [txJan] emptyAppState

/-- C4 counterexample. A null record reaching the normalizer is not
converted to a placeholder transaction: the first property read on it
throws, so the claim fails on the input null. -/
theorem C4_counterexample :
    normalizeItem ppNone "2024-01-01" "tx-gen" 0 JsVal.null =
      Except.error "TypeError: Cannot read properties of null" := rfl

/-- C4 as amended. For any input record other than null and undefined the
normalizer returns exactly one Transaction and never throws, and a record
matching neither the canonical shape nor the sheet-row shape becomes the
placeholder EXPENSE / MANUAL_REVIEW transaction whose description is the
JSON-serialized raw payload. -/
theorem C4_normalizer_totality (pp : String → Option String) (today genId : String)
    (index : ℕ) (item : JsVal) (h1 : item ≠ JsVal.null) (h2 : item ≠ JsVal.undefined) :
    (∃ t, normalizeItem pp today genId index item = Except.ok t) ∧
    (hasTransactionFields item = false → hasSheetFields item = false →
      normalizeItem pp today genId index item = Except.ok
        { id := "tx-unknown-" ++ toString index
          date := today
          clientName := "Unknown Format"
          description := jsonStringify item
          amount := 0
          vatAmount := 0
          grossAmount := 0
          afm := ""
          mark := ""
          invoiceLink := ""
          type := TransactionType.EXPENSE
          status := TransactionStatus.MANUAL_REVIEW
          isNew := false }) := by
  have hok : normalizeItem pp today genId index item =
      Except.ok (normalizeItemCore pp today genId index item) := by
    cases item with
    | null => exact absurd rfl h1
    | undefined => exact absurd rfl h2
    | bool b => rfl
    | num q => rfl
    | str s => rfl
    | arr xs => rfl
    | obj fs => rfl
  refine ⟨⟨_, hok⟩, ?_⟩
  intro hT hS
  rw [hok]
  simp only [normalizeItemCore, hT, hS, Bool.false_eq_true, if_false]

/-- C4 witness: the amended statement at a plain-string garbage record,
which is neither canonical nor sheet-shaped and becomes the serialized
placeholder. -/
theorem C4_witness :
    (∃ t, normalizeItem ppNone "2024-01-01" "tx-gen" 0 (JsVal.str "garbage") =
      Except.ok t) ∧
    normalizeItem ppNone "2024-01-01" "tx-gen" 0 (JsVal.str "garbage") = Except.ok
      { id := "tx-unknown-" ++ toString 0
        date := "2024-01-01"
        clientName := "Unknown Format"
        description := jsonStringify (JsVal.str "garbage")
        amount := 0
        vatAmount := 0
        grossAmount := 0
        afm := ""
        mark := ""
        invoiceLink := ""
        type := TransactionType.EXPENSE
        status := TransactionStatus.MANUAL_REVIEW
        isNew := false } :=
  have H := C4_normalizer_totality ppNone "2024-01-01" "tx-gen" 0 (JsVal.str "garbage")
    (fun h => JsVal.noConfusion h) (fun h => JsVal.noConfusion h)
  ⟨H.1, H.2 rfl rfl⟩

/-- C9. A record that is not canonical but carries sheet columns is produced
by the normalizer with type EXPENSE, whatever the values of its fields: the
sheet branch hardcodes the type. -/
theorem C9_sheet_rows_expense (pp : String → Option String) (today genId : String)
    (index : ℕ) (item : JsVal) (h1 : hasTransactionFields item = false)
    (h2 : hasSheetFields item = true) :
    normalizeItem pp today genId index item =
      Except.ok (normalizeItemCore pp today genId index item) ∧
    (normalizeItemCore pp today genId index item).type = TransactionType.EXPENSE := by
  constructor
  · cases item with
    | null => exact Bool.noConfusion h2
    | undefined => exact Bool.noConfusion h2
    | bool b => rfl
    | num q => rfl
    | str s => rfl
    | arr xs => rfl
    | obj fs => rfl
  · simp only [normalizeItemCore, h1, h2, Bool.false_eq_true, if_false, if_true]

/-- A raw sheet-style record used to instantiate the sheet-shape claims. -/
def sheetItem : JsVal :=
  JsVal.obj [("DATE", JsVal.str "15/1/2024"), ("CLIENT", JsVal.str "Acme")]

/-- C9 witness: the sheet-row claim at a concrete raw row with DATE and
CLIENT columns. -/
theorem C9_witness :
    normalizeItem ppNone "2024-01-01" "tx-gen" 0 sheetItem =
      Except.ok (normalizeItemCore ppNone "2024-01-01" "tx-gen" 0 sheetItem) ∧
    (normalizeItemCore ppNone "2024-01-01" "tx-gen" 0 sheetItem).type =
      TransactionType.EXPENSE :=
  C9_sheet_rows_expense ppNone "2024-01-01" "tx-gen" 0 sheetItem (by decide) (by decide)

/-- Taking k of an already-k-truncated suffix appended to a list equals
taking k of the untruncated concatenation. -/
theorem take_append_take {α : Type} (L M : List α) (k : ℕ) :
    (L ++ M.take k).take k = (L ++ M).take k := by
  rw [List.take_append_eq_append_take, List.take_append_eq_append_take, List.take_take,
    Nat.min_eq_left (Nat.sub_le k L.length)]

/-- Folding addNotification over notifications with pairwise-distinct ids,
all distinct from the ids already in the log, builds the reversed input on
top of the log, truncated to the 50-entry cap. -/
theorem foldl_addNotification_distinct (ns : List Notification) :
    ∀ acc : List Notification,
      ns.Pairwise (fun a b => a.id ≠ b.id) →
      (∀ n ∈ ns, ∀ m ∈ acc, ¬ m.id = n.id) →
      acc.length ≤ 50 →
      List.foldl addNotification acc ns = (ns.reverse ++ acc).take 50 := by
  induction ns with
  | nil =>
    intro acc _ _ hlen
    simp [List.take_of_length_le hlen]
  | cons x xs ih =>
    intro acc hdist hsep hlen
    have hnone : ∀ m ∈ acc, ¬ m.id = x.id :=
      fun m hm => hsep x (List.mem_cons_self x xs) m hm
    have hx : addNotification acc x = (x :: acc).take 50 := by
      unfold addNotification
      rw [if_neg]
      intro hany
      rcases List.any_eq_true.mp hany with ⟨m, hm, hid⟩
      exact hnone m hm (of_decide_eq_true hid)
    rw [List.foldl_cons, hx]
    rw [ih ((x :: acc).take 50) (List.pairwise_cons.mp hdist).2 ?hsep ?hlen]
    case hsep =>
      intro n hn m hm
      rcases List.mem_cons.mp (List.mem_of_mem_take hm) with rfl | hmacc
      · exact (List.pairwise_cons.mp hdist).1 n hn
      · exact hsep n (List.mem_cons_of_mem x hn) m hmacc
    case hlen =>
      rw [List.length_take]
      exact Nat.min_le_left 50 _
    rw [take_append_take, List.reverse_cons, List.append_assoc, List.singleton_append]

/-- C5. Appending a notification whose id is already in the log is a no-op;
otherwise the notification is prepended and the log trimmed to 50 entries;
a log within the cap stays within the cap; and appending 51 notifications
with pairwise-distinct ids to an empty log leaves exactly 50, the first
appended (oldest) one being the one evicted. -/
theorem C5_notification_cap :
    (∀ (log : List Notification) (n : Notification),
      (∃ m ∈ log, m.id = n.id) → addNotification log n = log) ∧
    (∀ (log : List Notification) (n : Notification),
      (¬ ∃ m ∈ log, m.id = n.id) → addNotification log n = (n :: log).take 50) ∧
    (∀ (log : List Notification) (n : Notification),
      log.length ≤ 50 → (addNotification log n).length ≤ 50) ∧
    (∀ ns : List Notification, ns.length = 51 →
      ns.Pairwise (fun a b => a.id ≠ b.id) →
      (List.foldl addNotification [] ns).length = 50 ∧
      ∀ h, ns.head? = some h → h ∉ List.foldl addNotification [] ns) := by
  refine ⟨?_, ?_, ?_, ?_⟩
  · rintro log n ⟨m, hm, hid⟩
    unfold addNotification
    rw [if_pos (List.any_eq_true.mpr ⟨m, hm, decide_eq_true hid⟩)]
  · intro log n hno
    unfold addNotification
    rw [if_neg]
    intro hany
    rcases List.any_eq_true.mp hany with ⟨m, hm, hid⟩
    exact hno ⟨m, hm, of_decide_eq_true hid⟩
  · intro log n hlen
    unfold addNotification
    split
    · exact hlen
    · rw [List.length_take]
      exact Nat.min_le_left 50 _
  · intro ns h51 hdist
    have hf := foldl_addNotification_distinct ns [] hdist
      (fun n _ m hm => absurd hm (List.not_mem_nil m)) (by simp)
    rw [List.append_nil] at hf
    refine ⟨?_, ?_⟩
    · rw [hf, List.length_take, List.length_reverse, h51]
      rfl
    · intro h hh
      cases ns with
      | nil => exact Option.noConfusion hh
      | cons a tail =>
        have ha : a = h := Option.some.inj hh
        subst ha
        have htl : tail.reverse.length = 50 := by
          rw [List.length_reverse]
          simpa using h51
        rw [hf, List.reverse_cons, ← htl, List.take_left]
        intro hmem
        exact (List.pairwise_cons.mp hdist).1 a (List.mem_reverse.mp hmem) rfl

/-- A minimal notification with the given numeric id. -/
def mkNotif (i : ℕ) : Notification :=
  { id := toString i
    message := ""
    type := NotifKind.info
    transaction := none
    timestamp := 0
    read := false }

/-- A batch of 51 notifications with pairwise-distinct ids. -/
def notifBatch : List Notification := (List.range 51).map mkNotif

/-- C5 witness: duplicate append is a no-op on a concrete singleton log, a
fresh append prepends and trims, the cap is respected, and the concrete
51-element distinct batch folds to exactly 50 entries with the first
notification evicted. -/
theorem C5_witness :
    addNotification [mkNotif 0] (mkNotif 0) = [mkNotif 0] ∧
    addNotification [] (mkNotif 0) = ([mkNotif 0] : List Notification).take 50 ∧
    (addNotification [] (mkNotif 0)).length ≤ 50 ∧
    (List.foldl addNotification [] notifBatch).length = 50 ∧
    mkNotif 0 ∉ List.foldl addNotification [] notifBatch := by
  have H4 := C5_notification_cap.2.2.2 notifBatch (by decide) (by decide)
  refine ⟨?_, ?_, ?_, H4.1, H4.2 (mkNotif 0) (by decide)⟩
  · exact C5_notification_cap.1 [mkNotif 0] (mkNotif 0)
      ⟨mkNotif 0, List.mem_cons_self _ _, rfl⟩
  · refine C5_notification_cap.2.1 [] (mkNotif 0) ?_
    rintro ⟨m, hm, _⟩
    exact List.not_mem_nil m hm
  · exact C5_notification_cap.2.2.1 [] (mkNotif 0) (by simp)

/-- C6. Date normalization: an absent (empty) date yields today; a string
with a YYYY-MM-DD prefix is truncated at the first T (dropping any ISO time
component); a slash date D/M/YYYY or M/D/YYYY is interpreted with the first
component as the month when it is at most 12 and as the day when it exceeds
12; any other string goes through the platform parser, falling back to
today when unparseable. Concrete instances: an ISO timestamp truncates to
its date part, 5/3/2024 reads as May 3, and 13/2/2024 reads as
February 13. -/
theorem C6_normalize_date (pp : String → Option String) (today s p1 p2 y : String) :
    normalizeDate pp today "" = today ∧
    (s ≠ "" → isoDateStart s = true → normalizeDate pp today s = beforeT s) ∧
    (s ≠ "" → isoDateStart s = false → slashDateMatch s = true →
      jsSplit '/' s = [p1, p2, y] →
      ((parseIntDigits p1 ≤ 12 →
        normalizeDate pp today s = y ++ "-" ++ padTo2 p1 ++ "-" ++ padTo2 p2) ∧
       (12 < parseIntDigits p1 →
        normalizeDate pp today s = y ++ "-" ++ padTo2 p2 ++ "-" ++ padTo2 p1))) ∧
    (s ≠ "" → isoDateStart s = false → slashDateMatch s = false →
      normalizeDate pp today s = (pp s).getD today) ∧
    normalizeDate pp today "2024-03-10T12:34:56.000Z" = "2024-03-10" ∧
    normalizeDate pp today "5/3/2024" = "2024-05-03" ∧
    normalizeDate pp today "13/2/2024" = "2024-02-13" := by
  refine ⟨rfl, ?_, ?_, ?_, ?_, ?_, ?_⟩
  · intro hne hiso
    simp only [normalizeDate]
    rw [if_neg hne, if_pos hiso]
  · intro hne hiso hslash hsplit
    simp only [normalizeDate]
    rw [if_neg hne, if_neg (by simp [hiso]), if_pos hslash, hsplit]
    constructor
    · intro h12
      show (if parseIntDigits p1 ≤ 12 then y ++ "-" ++ padTo2 p1 ++ "-" ++ padTo2 p2
        else y ++ "-" ++ padTo2 p2 ++ "-" ++ padTo2 p1) = _
      rw [if_pos h12]
    · intro h12
      show (if parseIntDigits p1 ≤ 12 then y ++ "-" ++ padTo2 p1 ++ "-" ++ padTo2 p2
        else y ++ "-" ++ padTo2 p2 ++ "-" ++ padTo2 p1) = _
      rw [if_neg (not_le.mpr h12)]
  · intro hne hiso hslash
    simp only [normalizeDate]
    rw [if_neg hne, if_neg (by simp [hiso]), if_neg (by simp [hslash])]
    cases hp : pp s <;> rfl
  · simp only [normalizeDate]
    rw [if_neg (by decide), if_pos (by decide)]
    decide
  · simp only [normalizeDate]
    rw [if_neg (by decide), if_neg (by decide), if_pos (by decide),
      show jsSplit '/' "5/3/2024" = ["5", "3", "2024"] from by decide]
    show (if parseIntDigits "5" ≤ 12
      then "2024" ++ "-" ++ padTo2 "5" ++ "-" ++ padTo2 "3"
      else "2024" ++ "-" ++ padTo2 "3" ++ "-" ++ padTo2 "5") = "2024-05-03"
    decide
  · simp only [normalizeDate]
    rw [if_neg (by decide), if_neg (by decide), if_pos (by decide),
      show jsSplit '/' "13/2/2024" = ["13", "2", "2024"] from by decide]
    show (if parseIntDigits "13" ≤ 12
      then "2024" ++ "-" ++ padTo2 "13" ++ "-" ++ padTo2 "2"
      else "2024" ++ "-" ++ padTo2 "2" ++ "-" ++ padTo2 "13") = "2024-02-13"
    decide

/-- C6 witness: the ISO-truncation case at a concrete timestamp and the
slash disambiguation at a concrete day-first date, with the shape
hypotheses checked by evaluation. -/
theorem C6_witness :
    normalizeDate ppNone "2099-01-01" "2024-03-10T12:34:56.000Z" =
      beforeT "2024-03-10T12:34:56.000Z" ∧
    normalizeDate ppNone "2099-01-01" "13/2/2024" =
      "2024" ++ "-" ++ padTo2 "2" ++ "-" ++ padTo2 "13" :=
  have H := C6_normalize_date ppNone "2099-01-01" "2024-03-10T12:34:56.000Z" "13" "2" "2024"
  have H2 := C6_normalize_date ppNone "2099-01-01" "13/2/2024" "13" "2" "2024"
  ⟨H.2.1 (by decide) (by decide),
    (H2.2.2.1 (by decide) (by decide) (by decide) (by decide)).2 (by decide)⟩

end TaxPulse
